import Mathlib

/-!
Verification of the appointment-assistant backend (`app.py`).

The Python module keeps a global dict `APPOINTMENTS` mapping a
`"YYYY-MM-DD HH:MM"` key to a booking record.  We embed the store as an
association list, and the mutating functions (`book_appointment`,
`generate_response`) as pure functions that return the updated store.
Python dict assignment overwrites the entry at a key; we model it by
consing the new entry and filtering out any old entry at that key, so
keys stay unique.  Python truthiness of the nullable string fields
(`None` and `""` are falsy) is modelled by `pyTruthy`.
-/

namespace AppointmentApp

/-- A booking record: `{"service": ..., "name": ..., "booked": True}`. -/
structure BookingRecord where
  service : String
  name : String
  booked : Bool
  deriving Repr, DecidableEq

/-- The in-memory store: a dict from `"date time"` keys to booking records. -/
abbrev Store := List (String × BookingRecord)

/-- The seed store (`APPOINTMENTS` at module load). -/
def APPOINTMENTS : Store :=
  [("2024-09-20 10:00", ⟨"dentist", "John Doe", true⟩),
   ("2024-09-20 14:00", ⟨"haircut", "Jane Smith", true⟩)]

/-- `AVAILABLE_SLOTS`, the static suggestion list. -/
def AVAILABLE_SLOTS : List String :=
  ["09:00", "10:00", "11:00", "12:00", "13:00", "14:00", "15:00", "16:00", "17:00"]

/-- The normalized output of extraction (`parse_date_time`).  All fields
nullable, as in the JSON the model is asked for. -/
structure IntentRecord where
  service_type : Option String
  date : Option String
  time : Option String
  user_name : Option String
  intent : Option String
  deriving Repr, DecidableEq

/-- Python truthiness of a nullable string: `None` and `""` are falsy. -/
def pyTruthy : Option String → Bool
  | none => false
  | some s => s ≠ ""

/-- Rendering of a nullable string inside a Python f-string
(`None` prints as `"None"`). -/
def optStr : Option String → String
  | none => "None"
  | some s => s

/-- Outcome of the external call plus JSON parsing inside
`parse_date_time`: either a parsed record, or any raised exception. -/
inductive ExtractionOutcome where
  | success (info : IntentRecord)
  | failure
  deriving Repr, DecidableEq

/-- `parse_date_time`: the try/except wrapper around the external
extraction call.  Any failure is caught and mapped to the default record
with all fields null and intent `"unclear"`. -/
def parse_date_time : ExtractionOutcome → IntentRecord
  | .success info => info
  | .failure => ⟨none, none, none, none, some "unclear"⟩

/-- `check_availability(date, time)`: true iff the key `"date time"` is
not in the store. -/
def check_availability (date time : String) (store : Store) : Bool :=
  (store.lookup (date ++ " " ++ time)).isNone

/-- `book_appointment(date, time, service, name)`: dict assignment at the
key `"date time"` of a record with `booked = True`. -/
def book_appointment (date time service name : String) (store : Store) : Store :=
  (date ++ " " ++ time, ⟨service, name, true⟩) ::
    store.filter (fun p => p.1 != date ++ " " ++ time)

/-- The list of missing required fields computed in the
`book_appointment` branch of `generate_response` (name is not checked
here; a field is missing when it is Python-falsy). -/
def missing_fields (info : IntentRecord) : List String :=
  (if !pyTruthy info.service_type then ["type of appointment"] else []) ++
  (if !pyTruthy info.date then ["date"] else []) ++
  (if !pyTruthy info.time then ["time"] else [])

/-- `generate_response(user_message, extracted_info)`: the dialogue
policy.  The Python function mutates the global store; we return the
response string together with the resulting store. -/
def generate_response (user_message : String) (extracted_info : IntentRecord)
    (store : Store) : String × Store :=
  let _ := user_message
  if extracted_info.intent = some "greeting" then
    ("Hello! I\x27m your appointment assistant. I can help you book appointments. What kind of appointment would you like to schedule?",
     store)
  else if extracted_info.intent = some "book_appointment" then
    let service := extracted_info.service_type
    let date := extracted_info.date
    let time := extracted_info.time
    let name := extracted_info.user_name
    let missing_info := missing_fields extracted_info
    if missing_info ≠ [] then
      ("I need a bit more information. Could you please provide the " ++
        String.intercalate ", " missing_info ++ "?", store)
    else if check_availability (optStr date) (optStr time) store then
      if pyTruthy name then
        ("Perfect! Your " ++ optStr service ++ " appointment for " ++ optStr date ++
          " at " ++ optStr time ++ " is confirmed, " ++ optStr name ++
          ". Is there anything else I can help you with?",
         book_appointment (optStr date) (optStr time) (optStr service) (optStr name) store)
      else
        ("Great! I have a " ++ optStr service ++ " appointment available on " ++
          optStr date ++ " at " ++ optStr time ++
          ". What\x27s your name so I can confirm the booking?", store)
    else
      ("I\x27m sorry, but " ++ optStr time ++ " on " ++ optStr date ++
        " is already booked. Here are some available times: " ++
        String.intercalate ", " (AVAILABLE_SLOTS.take 3) ++
        ". Would any of these work?", store)
  else
    ("I\x27m here to help you book appointments. Could you please tell me what kind of appointment you need and when you\x27d like to schedule it?",
     store)

/-- Python whitespace as recognised by `str.strip()`. -/
def pyIsSpace (c : Char) : Bool :=
  c == ' ' || c == '\t' || c == '\n' || c == '\r' || c == '\x0b' || c == '\x0c'

/-- Python `str.strip()`: drop leading and trailing whitespace. -/
def pyStrip (s : String) : String :=
  ⟨((s.data.dropWhile pyIsSpace).reverse.dropWhile pyIsSpace).reverse⟩

/-- The `/chat` turn handler, abstracted over the extraction capability:
an empty or whitespace-only message short-circuits before extraction
(`if not user_message.strip()`). -/
def chat (message : String) (extract : String → IntentRecord) (store : Store) :
    String × Store :=
  if pyStrip message = "" then
    ("Please enter a message.", store)
  else
    generate_response message (extract message) store

/-- Number of entries in the store at a given key. -/
def countKey (k : String) (s : Store) : Nat :=
  (s.filter (fun p => p.1 == k)).length

/-- Every record in the store has its booked flag set. -/
def AllBooked (s : Store) : Prop :=
  ∀ p ∈ s, p.2.booked = true

/-- A sequence of dialogue-policy turns starting from a store. -/
def runSteps : List (String × IntentRecord) → Store → Store
  | [], s => s
  | (m, info) :: rest, s => runSteps rest (generate_response m info s).2

/-! ## Helper lemmas -/

theorem lookup_book_self (d t svc nm : String) (s : Store) :
    (book_appointment d t svc nm s).lookup (d ++ " " ++ t) = some ⟨svc, nm, true⟩ := by
  simp [book_appointment, List.lookup_cons]

theorem countKey_book_self (d t svc nm : String) (s : Store) :
    countKey (d ++ " " ++ t) (book_appointment d t svc nm s) = 1 := by
  simp [countKey, book_appointment, List.filter_filter]

theorem allBooked_book (d t svc nm : String) (s : Store) (h : AllBooked s) :
    AllBooked (book_appointment d t svc nm s) := by
  intro p hp
  rcases List.mem_cons.mp hp with h1 | h1
  · subst h1; rfl
  · exact h p (List.mem_of_mem_filter h1)

theorem generate_response_store_cases (m : String) (info : IntentRecord) (s : Store) :
    (generate_response m info s).2 = s ∨
    ∃ d t svc nm, (generate_response m info s).2 = book_appointment d t svc nm s := by
  simp only [generate_response]
  split_ifs <;> first
    | exact Or.inl rfl
    | exact Or.inr ⟨optStr info.date, optStr info.time, optStr info.service_type,
        optStr info.user_name, rfl⟩

theorem allBooked_step (m : String) (info : IntentRecord) (s : Store) (h : AllBooked s) :
    AllBooked (generate_response m info s).2 := by
  rcases generate_response_store_cases m info s with hc | ⟨d, t, svc, nm, hc⟩
  · rw [hc]; exact h
  · rw [hc]; exact allBooked_book d t svc nm s h

theorem allBooked_runSteps (steps : List (String × IntentRecord)) (s : Store)
    (h : AllBooked s) : AllBooked (runSteps steps s) := by
  induction steps generalizing s with
  | nil => exact h
  | cons step rest ih => exact ih _ (allBooked_step step.1 step.2 s h)

theorem allBooked_seed : AllBooked APPOINTMENTS := by
  intro p hp
  simp only [APPOINTMENTS, List.mem_cons, List.not_mem_nil, or_false] at hp
  rcases hp with h | h <;> subst h <;> rfl

/-! ## Claim theorems -/

/-- C2: a slot key with no booking record is reported available
(`check_availability` is true iff no record exists for the key), and after
`book_appointment` on a date and time, `check_availability` returns false
for that exact key. -/
theorem check_availability_spec (d t svc nm : String) (s : Store) :
    (check_availability d t s = true ↔ s.lookup (d ++ " " ++ t) = none) ∧
    check_availability d t (book_appointment d t svc nm s) = false := by
  constructor
  · simp [check_availability, Option.isNone_iff_eq_none]
  · simp [check_availability, book_appointment, List.lookup_cons]

/-- C6: any failure in the external extraction call or in parsing its
response is caught by `parse_date_time` and converted into the default
intent record with all fields null and intent `"unclear"`; the embedding
is a total function, so nothing escapes this boundary. -/
theorem parse_date_time_failure_default :
    parse_date_time ExtractionOutcome.failure =
      ⟨none, none, none, none, some "unclear"⟩ := rfl

/-- C7: an empty or whitespace-only message makes `chat` return exactly
the fixed "please enter a message" response with the store unchanged, for
every extraction function — so extraction is never consulted. -/
theorem chat_empty_message (message : String) (extract : String → IntentRecord)
    (s : Store) (h : pyStrip message = "") :
    chat message extract s = ("Please enter a message.", s) := by
  simp [chat, h]

theorem chat_empty_message_witness :
    chat "  \t " (fun _ => parse_date_time ExtractionOutcome.failure) APPOINTMENTS =
      ("Please enter a message.", APPOINTMENTS) :=
  chat_empty_message "  \t " (fun _ => parse_date_time ExtractionOutcome.failure)
    APPOINTMENTS (by decide)

/-- C8: on a `greeting` intent the dialogue policy returns the fixed
greeting text and leaves the store untouched, whatever the store holds. -/
theorem greeting_fixed_response (m : String) (info : IntentRecord) (s : Store)
    (h : info.intent = some "greeting") :
    generate_response m info s =
      ("Hello! I\x27m your appointment assistant. I can help you book appointments. What kind of appointment would you like to schedule?",
       s) := by
  simp [generate_response, h]

theorem greeting_fixed_response_witness :
    generate_response "hi" ⟨none, none, none, none, some "greeting"⟩ APPOINTMENTS =
      ("Hello! I\x27m your appointment assistant. I can help you book appointments. What kind of appointment would you like to schedule?",
       APPOINTMENTS) :=
  greeting_fixed_response "hi" ⟨none, none, none, none, some "greeting"⟩ APPOINTMENTS rfl

theorem clarification_of_missing (m : String) (info : IntentRecord) (s : Store)
    (hint : info.intent = some "book_appointment")
    (hmiss : missing_fields info ≠ []) :
    generate_response m info s =
      ("I need a bit more information. Could you please provide the " ++
        String.intercalate ", " (missing_fields info) ++ "?", s) := by
  simp [generate_response, hint, hmiss]

theorem missing_fields_ne_nil (info : IntentRecord)
    (h : pyTruthy info.service_type = false ∨ pyTruthy info.date = false ∨
         pyTruthy info.time = false) :
    missing_fields info ≠ [] := by
  intro hc
  rw [missing_fields] at hc
  rcases List.append_eq_nil.mp hc with ⟨hc1, hc2⟩
  rcases List.append_eq_nil.mp hc1 with ⟨hc3, hc4⟩
  rcases h with h | h | h
  · rw [h] at hc3; simp at hc3
  · rw [h] at hc4; simp at hc4
  · rw [h] at hc2; simp at hc2

/-- C1: with category `book_appointment`, all of service, date, time, name
supplied and the slot free, the dialogue policy books the slot — the
resulting store holds exactly one record at the key `"date time"`, whose
service and name (with `booked := true`) are the supplied values — and
returns the confirmation message naming service, date, time and name. -/
theorem booking_success_spec (m : String) (info : IntentRecord) (s : Store)
    (hint : info.intent = some "book_appointment")
    (hs : pyTruthy info.service_type = true)
    (hd : pyTruthy info.date = true)
    (ht : pyTruthy info.time = true)
    (hn : pyTruthy info.user_name = true)
    (hav : check_availability (optStr info.date) (optStr info.time) s = true) :
    generate_response m info s =
      ("Perfect! Your " ++ optStr info.service_type ++ " appointment for " ++
        optStr info.date ++ " at " ++ optStr info.time ++ " is confirmed, " ++
        optStr info.user_name ++ ". Is there anything else I can help you with?",
       book_appointment (optStr info.date) (optStr info.time)
         (optStr info.service_type) (optStr info.user_name) s) ∧
    (generate_response m info s).2.lookup
        (optStr info.date ++ " " ++ optStr info.time) =
      some ⟨optStr info.service_type, optStr info.user_name, true⟩ ∧
    countKey (optStr info.date ++ " " ++ optStr info.time)
        (generate_response m info s).2 = 1 := by
  have hmiss : missing_fields info = [] := by
    simp [missing_fields, hs, hd, ht]
  have h1 : generate_response m info s =
      ("Perfect! Your " ++ optStr info.service_type ++ " appointment for " ++
        optStr info.date ++ " at " ++ optStr info.time ++ " is confirmed, " ++
        optStr info.user_name ++ ". Is there anything else I can help you with?",
       book_appointment (optStr info.date) (optStr info.time)
         (optStr info.service_type) (optStr info.user_name) s) := by
    simp [generate_response, hint, hmiss, hav, hn]
  refine ⟨h1, ?_, ?_⟩
  · rw [h1]
    exact lookup_book_self (optStr info.date) (optStr info.time)
      (optStr info.service_type) (optStr info.user_name) s
  · rw [h1]
    exact countKey_book_self (optStr info.date) (optStr info.time)
      (optStr info.service_type) (optStr info.user_name) s

theorem booking_success_spec_witness :
    (generate_response "book" ⟨some "dentist", some "2024-09-21", some "09:00",
        some "Alice", some "book_appointment"⟩ APPOINTMENTS).2.lookup
      "2024-09-21 09:00" = some ⟨"dentist", "Alice", true⟩ := by
  have h := booking_success_spec "book"
    ⟨some "dentist", some "2024-09-21", some "09:00",
      some "Alice", some "book_appointment"⟩ APPOINTMENTS
    rfl rfl rfl rfl rfl (by decide)
  simpa using h.2.1

/-- C3: with category `book_appointment`, service/date/time supplied, the
slot free, but no name, the policy answers that the slot is available and
asks for the name, and the store is unchanged — no record is created. -/
theorem name_missing_asks_name (m : String) (info : IntentRecord) (s : Store)
    (hint : info.intent = some "book_appointment")
    (hs : pyTruthy info.service_type = true)
    (hd : pyTruthy info.date = true)
    (ht : pyTruthy info.time = true)
    (hn : info.user_name = none)
    (hav : check_availability (optStr info.date) (optStr info.time) s = true) :
    generate_response m info s =
      ("Great! I have a " ++ optStr info.service_type ++
        " appointment available on " ++ optStr info.date ++ " at " ++
        optStr info.time ++ ". What\x27s your name so I can confirm the booking?",
       s) := by
  have hmiss : missing_fields info = [] := by
    simp [missing_fields, hs, hd, ht]
  simp [generate_response, hint, hmiss, hav, hn, pyTruthy]

theorem name_missing_asks_name_witness :
    generate_response "book" ⟨some "dentist", some "2024-09-21", some "09:00",
        none, some "book_appointment"⟩ APPOINTMENTS =
      ("Great! I have a dentist appointment available on 2024-09-21 at 09:00. What\x27s your name so I can confirm the booking?",
       APPOINTMENTS) := by
  have h := name_missing_asks_name "book"
    ⟨some "dentist", some "2024-09-21", some "09:00", none, some "book_appointment"⟩
    APPOINTMENTS rfl rfl rfl rfl rfl (by decide)
  simpa using h

/-- C4: with category `book_appointment`, service/date/time supplied but
the slot already taken, the policy returns the conflict message naming the
requested time and date and listing the first three entries of
`AVAILABLE_SLOTS` joined with commas (`"09:00, 10:00, 11:00"`), and the
store — the existing record included — is unchanged. -/
theorem conflict_suggests_first_slots (m : String) (info : IntentRecord) (s : Store)
    (hint : info.intent = some "book_appointment")
    (hs : pyTruthy info.service_type = true)
    (hd : pyTruthy info.date = true)
    (ht : pyTruthy info.time = true)
    (hav : check_availability (optStr info.date) (optStr info.time) s = false) :
    generate_response m info s =
      ("I\x27m sorry, but " ++ optStr info.time ++ " on " ++ optStr info.date ++
        " is already booked. Here are some available times: " ++
        String.intercalate ", " (AVAILABLE_SLOTS.take 3) ++
        ". Would any of these work?", s) ∧
    String.intercalate ", " (AVAILABLE_SLOTS.take 3) = "09:00, 10:00, 11:00" := by
  have hmiss : missing_fields info = [] := by
    simp [missing_fields, hs, hd, ht]
  exact ⟨by simp [generate_response, hint, hmiss, hav], rfl⟩

theorem conflict_suggests_first_slots_witness :
    generate_response "book" ⟨some "dentist", some "2024-09-20", some "10:00",
        some "Alice", some "book_appointment"⟩ APPOINTMENTS =
      ("I\x27m sorry, but 10:00 on 2024-09-20 is already booked. Here are some available times: 09:00, 10:00, 11:00. Would any of these work?",
       APPOINTMENTS) := by
  have h := conflict_suggests_first_slots "book"
    ⟨some "dentist", some "2024-09-20", some "10:00", some "Alice",
      some "book_appointment"⟩ APPOINTMENTS rfl rfl rfl rfl (by decide)
  simpa using h.1

/-- C5: with category `book_appointment` and at least one of service,
date, time missing (name not required here), the policy returns the
clarification request naming exactly the missing fields joined with
commas, and the store is unchanged. -/
theorem missing_info_clarification (m : String) (info : IntentRecord) (s : Store)
    (hint : info.intent = some "book_appointment")
    (h : pyTruthy info.service_type = false ∨ pyTruthy info.date = false ∨
         pyTruthy info.time = false) :
    generate_response m info s =
      ("I need a bit more information. Could you please provide the " ++
        String.intercalate ", " (missing_fields info) ++ "?", s) :=
  clarification_of_missing m info s hint (missing_fields_ne_nil info h)

theorem missing_info_clarification_witness :
    generate_response "book" ⟨none, some "2024-09-21", none, none,
        some "book_appointment"⟩ APPOINTMENTS =
      ("I need a bit more information. Could you please provide the type of appointment, time?",
       APPOINTMENTS) := by
  have h := missing_info_clarification "book"
    ⟨none, some "2024-09-21", none, none, some "book_appointment"⟩ APPOINTMENTS
    rfl (Or.inl rfl)
  simpa [missing_fields, pyTruthy] using h

/-- C9: the store invariant holds along every sequence of dialogue-policy
turns from the seed store: a slot is reported available exactly when no
record exists at its key, and every record ever in the store has
`booked = true`. -/
theorem store_invariant_runSteps (steps : List (String × IntentRecord)) :
    (∀ d t, check_availability d t (runSteps steps APPOINTMENTS) = true ↔
      (runSteps steps APPOINTMENTS).lookup (d ++ " " ++ t) = none) ∧
    AllBooked (runSteps steps APPOINTMENTS) := by
  refine ⟨fun d t => ?_, allBooked_runSteps steps APPOINTMENTS allBooked_seed⟩
  simp [check_availability, Option.isNone_iff_eq_none]

/-- C10: the policy tests the required fields by Python truthiness, so a
field equal to `""` (not null) is treated as missing: the clarification
request is returned, it names that field, and the store is unchanged. -/
theorem empty_string_field_missing (m : String) (info : IntentRecord) (s : Store)
    (hint : info.intent = some "book_appointment")
    (h : info.service_type = some "" ∨ info.date = some "" ∨ info.time = some "") :
    generate_response m info s =
      ("I need a bit more information. Could you please provide the " ++
        String.intercalate ", " (missing_fields info) ++ "?", s) ∧
    (info.service_type = some "" → "type of appointment" ∈ missing_fields info) ∧
    (info.date = some "" → "date" ∈ missing_fields info) ∧
    (info.time = some "" → "time" ∈ missing_fields info) := by
  have h' : pyTruthy info.service_type = false ∨ pyTruthy info.date = false ∨
      pyTruthy info.time = false := by
    rcases h with h | h | h
    · exact Or.inl (by rw [h]; rfl)
    · exact Or.inr (Or.inl (by rw [h]; rfl))
    · exact Or.inr (Or.inr (by rw [h]; rfl))
  refine ⟨clarification_of_missing m info s hint (missing_fields_ne_nil info h'),
    fun hse => ?_, fun hde => ?_, fun hte => ?_⟩
  · simp [missing_fields, hse, pyTruthy]
  · simp [missing_fields, hde, pyTruthy]
  · simp [missing_fields, hte, pyTruthy]

theorem empty_string_field_missing_witness :
    generate_response "book" ⟨some "", some "2024-09-21", some "09:00", none,
        some "book_appointment"⟩ APPOINTMENTS =
      ("I need a bit more information. Could you please provide the type of appointment?",
       APPOINTMENTS) := by
  have h := empty_string_field_missing "book"
    ⟨some "", some "2024-09-21", some "09:00", none, some "book_appointment"⟩
    APPOINTMENTS rfl (Or.inl rfl)
  simpa [missing_fields, pyTruthy] using h.1

end AppointmentApp
